import Mathlib

/-!
Shallow embedding of the kernel-graph composition and lifecycle engine of the
ComputeLibrary repository, centred on the CLLSTMLayer composite function and
the CLFloorKernel elementary kernel.  The repository snapshot ships only the
header declarations (src/arm_compute/runtime/CL/functions/CLLSTMLayer.h and
src/arm_compute/core/CL/kernels/CLFloorKernel.h); the bodies of validate,
configure, prepare and run live in translation units that are not part of the
snapshot, so those bodies are modelled from the specification and from the
interface documentation in the headers.
-/

/-- Element data types supported by the library tensors.  F16 and F32 are the
floating point types the LSTM layer and the floor kernel accept; U8 and S32
stand for the remaining library data types that they reject. -/
inductive DataType
  | F16
  | F32
  | U8
  | S32
  deriving DecidableEq

/-- Static tensor metadata: the shape (ordered list of dimension sizes,
dimension 0 first, as in ITensorInfo) and the element data type. -/
structure TensorInfo where
  shape : List Nat
  dataType : DataType
  deriving DecidableEq

/-- The optional operand set of LSTMParams (LSTMParams.h): each field mirrors
one of the optional tensors documented for CLLSTMLayer::configure; `none`
models a null pointer. -/
structure LSTMParams where
  input_to_input_weights : Option TensorInfo
  recurrent_to_input_weights : Option TensorInfo
  cell_to_input_weights : Option TensorInfo
  input_gate_bias : Option TensorInfo
  cell_to_forget_weights : Option TensorInfo
  cell_to_output_weights : Option TensorInfo
  projection_weights : Option TensorInfo
  projection_bias : Option TensorInfo
  input_layer_norm_weights : Option TensorInfo
  forget_layer_norm_weights : Option TensorInfo
  cell_layer_norm_weights : Option TensorInfo
  output_layer_norm_weights : Option TensorInfo
  deriving DecidableEq

/-- CIFG is active when the input gate weight group is absent (the feature
flags are derived from operand presence, spec section 3). -/
def LSTMParams.has_cifg_opt (p : LSTMParams) : Bool :=
  p.input_to_input_weights.isNone

/-- Peephole optimization is active when the peephole weight group is
supplied. -/
def LSTMParams.has_peephole_opt (p : LSTMParams) : Bool :=
  p.cell_to_forget_weights.isSome

/-- Output projection is active when projection weights are supplied. -/
def LSTMParams.has_projection (p : LSTMParams) : Bool :=
  p.projection_weights.isSome

/-- Layer normalization is active when the gate layer-norm weights are
supplied. -/
def LSTMParams.use_layer_norm (p : LSTMParams) : Bool :=
  p.forget_layer_norm_weights.isSome

/-- Activation functions that ActivationLayerInfo can carry; the orchestration
logic treats the choice as opaque. -/
inductive ActivationFunction
  | logistic
  | tanh
  | relu
  | boundedRelu
  deriving DecidableEq

/-- Activation information passed to configure and validate. -/
structure ActivationLayerInfo where
  activation : ActivationFunction
  deriving DecidableEq

/-- Status returned by the static validators: success, or a configuration
error carrying a human readable reason tag. -/
inductive Status
  | ok
  | configError (reason : String)
  deriving DecidableEq

/-- Error taxonomy of the runtime phases (spec section 7): configuration
errors are recoverable, state errors mark calls made before configure, device
errors come from the execution queue. -/
inductive LayerError
  | configurationError (reason : String)
  | stateError
  | deviceError
  deriving DecidableEq

/-- The full operand bundle taken by CLLSTMLayer::validate and
CLLSTMLayer::configure: the sixteen tensor descriptors, the optional operand
set, the activation information and the two clip thresholds.  Thresholds are
modelled as rationals; the orchestration logic only compares them with 0. -/
structure LSTMOperands where
  input : TensorInfo
  input_to_forget_weights : TensorInfo
  input_to_cell_weights : TensorInfo
  input_to_output_weights : TensorInfo
  recurrent_to_forget_weights : TensorInfo
  recurrent_to_cell_weights : TensorInfo
  recurrent_to_output_weights : TensorInfo
  forget_gate_bias : TensorInfo
  cell_bias : TensorInfo
  output_gate_bias : TensorInfo
  output_state_in : TensorInfo
  cell_state_in : TensorInfo
  scratch_buffer : TensorInfo
  output_state_out : TensorInfo
  cell_state_out : TensorInfo
  output : TensorInfo
  lstm_params : LSTMParams
  activation_info : ActivationLayerInfo
  cell_threshold : Rat
  projection_threshold : Rat

/-- input_size is dimension 0 of the source tensor (header docs:
input is [input_size, batch_size]). -/
def LSTMOperands.input_size (o : LSTMOperands) : Nat :=
  o.input.shape.headD 0

/-- batch_size is dimension 1 of the source tensor. -/
def LSTMOperands.batch_size (o : LSTMOperands) : Nat :=
  o.input.shape.getD 1 0

/-- num_units is dimension 1 of input_to_forget_weights (header docs:
[input_size, num_units]). -/
def LSTMOperands.num_units (o : LSTMOperands) : Nat :=
  o.input_to_forget_weights.shape.getD 1 0

/-- output_size is dimension 0 of recurrent_to_forget_weights (header docs:
[output_size, num_units]). -/
def LSTMOperands.output_size (o : LSTMOperands) : Nat :=
  o.recurrent_to_forget_weights.shape.getD 0 0

/-- The input gate weight group must be supplied together or omitted together
(all absent is the CIFG variant); cell_to_input_weights may only appear when
the group is present (spec section 4.1 check b). -/
def cifgGroupConsistent (p : LSTMParams) : Bool :=
  (p.input_to_input_weights.isSome == p.recurrent_to_input_weights.isSome) &&
  (p.input_to_input_weights.isSome == p.input_gate_bias.isSome) &&
  (p.input_to_input_weights.isSome || p.cell_to_input_weights.isNone)

/-- A peephole weight supplied without the other of its group is rejected
(spec section 4.1 check b). -/
def peepholeGroupConsistent (p : LSTMParams) : Bool :=
  p.cell_to_forget_weights.isSome == p.cell_to_output_weights.isSome

/-- Projection weights without a projection bias (or the converse) are
rejected (spec section 8 scenario 2). -/
def projectionGroupConsistent (p : LSTMParams) : Bool :=
  p.projection_weights.isSome == p.projection_bias.isSome

/-- The gate layer-norm weights must be supplied together; the input gate
layer-norm weights are present exactly when layer normalization is active and
the layer is not CIFG (the CIFG variant has no input gate path). -/
def layerNormGroupConsistent (p : LSTMParams) : Bool :=
  (p.forget_layer_norm_weights.isSome == p.cell_layer_norm_weights.isSome) &&
  (p.forget_layer_norm_weights.isSome == p.output_layer_norm_weights.isSome) &&
  (p.input_layer_norm_weights.isSome ==
    (p.forget_layer_norm_weights.isSome && p.input_to_input_weights.isSome))

/-- Shape agreement of the required operands, following the dimension
documentation of CLLSTMLayer.h (spec section 4.1 check c). -/
def requiredShapesOk (o : LSTMOperands) : Bool :=
  decide (o.input.shape = [o.input_size, o.batch_size]) &&
  decide (o.input_to_forget_weights.shape = [o.input_size, o.num_units]) &&
  decide (o.input_to_cell_weights.shape = [o.input_size, o.num_units]) &&
  decide (o.input_to_output_weights.shape = [o.input_size, o.num_units]) &&
  decide (o.recurrent_to_forget_weights.shape = [o.output_size, o.num_units]) &&
  decide (o.recurrent_to_cell_weights.shape = [o.output_size, o.num_units]) &&
  decide (o.recurrent_to_output_weights.shape = [o.output_size, o.num_units]) &&
  decide (o.forget_gate_bias.shape = [o.num_units]) &&
  decide (o.cell_bias.shape = [o.num_units]) &&
  decide (o.output_gate_bias.shape = [o.num_units]) &&
  decide (o.output_state_in.shape = [o.output_size, o.batch_size]) &&
  decide (o.cell_state_in.shape = [o.num_units, o.batch_size]) &&
  decide (o.output_state_out.shape = [o.output_size, o.batch_size]) &&
  decide (o.cell_state_out.shape = [o.num_units, o.batch_size]) &&
  decide (o.output.shape = [o.output_size, o.batch_size])

/-- An optional operand, when present, must have the documented shape. -/
def optShapeOk (t : Option TensorInfo) (sh : List Nat) : Bool :=
  match t with
  | none => true
  | some ti => decide (ti.shape = sh)

/-- Shape agreement of the optional operands, following the dimension
documentation of CLLSTMLayer.h. -/
def optionalShapesOk (o : LSTMOperands) : Bool :=
  optShapeOk o.lstm_params.input_to_input_weights [o.input_size, o.num_units] &&
  optShapeOk o.lstm_params.recurrent_to_input_weights [o.output_size, o.num_units] &&
  optShapeOk o.lstm_params.cell_to_input_weights [o.num_units] &&
  optShapeOk o.lstm_params.input_gate_bias [o.num_units] &&
  optShapeOk o.lstm_params.cell_to_forget_weights [o.num_units] &&
  optShapeOk o.lstm_params.cell_to_output_weights [o.num_units] &&
  optShapeOk o.lstm_params.projection_weights [o.output_size, o.num_units] &&
  optShapeOk o.lstm_params.projection_bias [o.output_size] &&
  optShapeOk o.lstm_params.input_layer_norm_weights [o.num_units] &&
  optShapeOk o.lstm_params.forget_layer_norm_weights [o.num_units] &&
  optShapeOk o.lstm_params.cell_layer_norm_weights [o.num_units] &&
  optShapeOk o.lstm_params.output_layer_norm_weights [o.num_units]

/-- The optional operand tensors that are actually present. -/
def LSTMParams.optTensors (p : LSTMParams) : List TensorInfo :=
  p.input_to_input_weights.toList ++ p.recurrent_to_input_weights.toList ++
  p.cell_to_input_weights.toList ++ p.input_gate_bias.toList ++
  p.cell_to_forget_weights.toList ++ p.cell_to_output_weights.toList ++
  p.projection_weights.toList ++ p.projection_bias.toList ++
  p.input_layer_norm_weights.toList ++ p.forget_layer_norm_weights.toList ++
  p.cell_layer_norm_weights.toList ++ p.output_layer_norm_weights.toList

/-- Data type uniformity (spec section 4.1 check d): the source data type is
F16 or F32 and every operand, required or supplied optional, shares it. -/
def datatypesUniform (o : LSTMOperands) : Bool :=
  decide (o.input.dataType = DataType.F16 ∨ o.input.dataType = DataType.F32) &&
  (([o.input_to_forget_weights, o.input_to_cell_weights, o.input_to_output_weights,
     o.recurrent_to_forget_weights, o.recurrent_to_cell_weights, o.recurrent_to_output_weights,
     o.forget_gate_bias, o.cell_bias, o.output_gate_bias,
     o.output_state_in, o.cell_state_in, o.scratch_buffer,
     o.output_state_out, o.cell_state_out, o.output] ++ o.lstm_params.optTensors).all
    (fun t => decide (t.dataType = o.input.dataType)))

/-- The scratch buffer must be [num_units * 4, batch_size] with CIFG and
[num_units * 3, batch_size] without (interface documentation of
CLLSTMLayer.h, lines 74 and 166). -/
def scratchShapeOk (o : LSTMOperands) : Bool :=
  decide (o.scratch_buffer.shape =
    [o.num_units * (if o.lstm_params.has_cifg_opt then 4 else 3), o.batch_size])

/-- Modelled from the spec: the body of CLLSTMLayer::validate lives in
CLLSTMLayer.cpp, which is not part of the snapshot.  Following spec section
4.1 it checks, in order, optional operand group consistency, shape
compatibility of required and optional operands, data type uniformity and the
variant dependent scratch buffer shape, each failure carrying a reason tag. -/
def CLLSTMLayer.validate (o : LSTMOperands) : Status :=
  if !cifgGroupConsistent o.lstm_params then
    Status.configError "inconsistent input gate operand group"
  else if !peepholeGroupConsistent o.lstm_params then
    Status.configError "inconsistent peephole operand group"
  else if !projectionGroupConsistent o.lstm_params then
    Status.configError "missing projection operand"
  else if !layerNormGroupConsistent o.lstm_params then
    Status.configError "inconsistent layer normalization operand group"
  else if !requiredShapesOk o then
    Status.configError "shape mismatch between required operands"
  else if !optionalShapesOk o then
    Status.configError "shape mismatch in optional operands"
  else if !datatypesUniform o then
    Status.configError "data type mismatch"
  else if !scratchShapeOk o then
    Status.configError "scratch buffer shape does not match active variant"
  else Status.ok

/-- One elementary kernel node of the composite graph; the constructors
mirror the kernel member fields of CLLSTMLayer.h. -/
inductive KernelNode
  | fullyConnectedInputGate
  | accumInputGate1
  | subtractInputGate
  | pixelwiseMulInputGate
  | activationInputGate
  | fullyConnectedForgetGate
  | accumForgetGate1
  | pixelwiseMulForgetGate
  | activationForgetGate
  | fullyConnectedCellState
  | gemmCellState1
  | transposeCellState
  | accumCellState1
  | accumCellState2
  | pixelwiseMulCellState1
  | activationCellState
  | cellClip
  | pixelwiseMulCellState2
  | fullyConnectedOutput
  | pixelwiseMulOutputState1
  | accumOutput1
  | activationOutput
  | activationOutputState
  | pixelwiseMulOutputState2
  | fullyConnectedOutputState
  | projectionClip
  | copyCellState
  | copyOutput
  | concatScratchBuffer
  | meanStdNormInputGate
  | pixelwiseMulInputGateCoeff
  | accumInputGateBias
  | meanStdNormForgetGate
  | pixelwiseMulForgetGateCoeff
  | accumForgetGateBias
  | meanStdNormCellGate
  | pixelwiseMulCellGateCoeff
  | accumCellGateBias
  | meanStdNormOutputGate
  | pixelwiseMulOutputGateCoeff
  | accumOutputGateBias
  deriving DecidableEq

/-- Logical roles of the scratch tensors owned by the orchestrator. -/
inductive ScratchRole
  | forgetGate
  | inputGate
  | cellState
  | outputGate
  | outputState
  | ones
  deriving DecidableEq

/-- Modelled from the spec: the graph assembly of CLLSTMLayer::configure
(CLLSTMLayer.cpp is not part of the snapshot).  Nodes are appended in the
fixed topological order of spec section 4.2 step 4: forget gate, input gate
(replaced under CIFG by the subtraction deriving it from the forget gate),
cell state update with optional clipping, output gate, output state with
optional projection and projection clipping, and the final copies and scratch
concatenation. -/
def buildGraph (cifg peephole layerNorm projection cellClip projClip : Bool) :
    List KernelNode :=
  ([KernelNode.fullyConnectedForgetGate]
    ++ (if peephole then [KernelNode.pixelwiseMulForgetGate, KernelNode.accumForgetGate1] else [])
    ++ (if layerNorm then
          [KernelNode.meanStdNormForgetGate, KernelNode.pixelwiseMulForgetGateCoeff,
           KernelNode.accumForgetGateBias] else [])
    ++ [KernelNode.activationForgetGate])
  ++ (if cifg then
        [KernelNode.subtractInputGate]
      else
        [KernelNode.fullyConnectedInputGate]
        ++ (if peephole then [KernelNode.pixelwiseMulInputGate, KernelNode.accumInputGate1] else [])
        ++ (if layerNorm then
              [KernelNode.meanStdNormInputGate, KernelNode.pixelwiseMulInputGateCoeff,
               KernelNode.accumInputGateBias] else [])
        ++ [KernelNode.activationInputGate])
  ++ ([KernelNode.fullyConnectedCellState, KernelNode.transposeCellState,
       KernelNode.gemmCellState1, KernelNode.accumCellState1]
    ++ (if layerNorm then
          [KernelNode.meanStdNormCellGate, KernelNode.pixelwiseMulCellGateCoeff,
           KernelNode.accumCellGateBias] else [])
    ++ [KernelNode.activationCellState, KernelNode.pixelwiseMulCellState1,
        KernelNode.pixelwiseMulCellState2, KernelNode.accumCellState2]
    ++ (if cellClip then [KernelNode.cellClip] else []))
  ++ ([KernelNode.fullyConnectedOutput]
    ++ (if peephole then [KernelNode.pixelwiseMulOutputState1, KernelNode.accumOutput1] else [])
    ++ (if layerNorm then
          [KernelNode.meanStdNormOutputGate, KernelNode.pixelwiseMulOutputGateCoeff,
           KernelNode.accumOutputGateBias] else [])
    ++ [KernelNode.activationOutput])
  ++ ([KernelNode.activationOutputState, KernelNode.pixelwiseMulOutputState2]
    ++ (if projection then
          [KernelNode.fullyConnectedOutputState]
          ++ (if projClip then [KernelNode.projectionClip] else []) else []))
  ++ [KernelNode.copyCellState, KernelNode.copyOutput, KernelNode.concatScratchBuffer]

/-- Modelled from the spec: the scratch tensor allocation of
CLLSTMLayer::configure.  The gate and state intermediates are always pooled;
the CIFG variant additionally materializes a tensor of ones used to derive
the input gate as one minus the forget gate (spec section 8 scenario 3). -/
def buildScratch (cifg : Bool) : List ScratchRole :=
  [ScratchRole.forgetGate, ScratchRole.inputGate, ScratchRole.cellState,
   ScratchRole.outputGate, ScratchRole.outputState]
  ++ (if cifg then [ScratchRole.ones] else [])

/-- Observable state of one CLLSTMLayer instance: the lifecycle flags, the
assembled kernel graph, the scratch pool, the derived feature flags of
CLLSTMLayer.h, and the contents produced by the one-time preparation. -/
structure CLLSTMLayer where
  configuredFlag : Bool
  is_prepared : Bool
  graph : List KernelNode
  scratch : List ScratchRole
  run_peephole_opt : Bool
  run_cifg_opt : Bool
  perform_cell_clipping : Bool
  has_projection_weights : Bool
  perform_projection_clipping : Bool
  is_layer_norm_lstm : Bool
  onesMaterialized : Bool
  weightsPrepared : Bool
  deriving DecidableEq

/-- A freshly constructed CLLSTMLayer: nothing configured, nothing
prepared, empty graph and scratch pool. -/
def CLLSTMLayer.init : CLLSTMLayer :=
  { configuredFlag := false
    is_prepared := false
    graph := []
    scratch := []
    run_peephole_opt := false
    run_cifg_opt := false
    perform_cell_clipping := false
    has_projection_weights := false
    perform_projection_clipping := false
    is_layer_norm_lstm := false
    onesMaterialized := false
    weightsPrepared := false }

/-- The three lifecycle states of spec section 3. -/
inductive Lifecycle
  | unconfigured
  | configured
  | prepared
  deriving DecidableEq

/-- The lifecycle state of an instance, derived from the two guard flags. -/
def CLLSTMLayer.lifecycle (s : CLLSTMLayer) : Lifecycle :=
  if s.configuredFlag = false then Lifecycle.unconfigured
  else if s.is_prepared then Lifecycle.prepared
  else Lifecycle.configured

/-- The instance state produced by a successful configure: feature flags
derived from operand presence and the clip thresholds (a zero threshold
disables clipping, header docs lines 93 to 96), the graph and scratch pool
rebuilt from scratch, and the prepared guard cleared. -/
def configuredState (o : LSTMOperands) : CLLSTMLayer :=
  let cifg := o.lstm_params.has_cifg_opt
  let peephole := o.lstm_params.has_peephole_opt
  let layerNorm := o.lstm_params.use_layer_norm
  let projection := o.lstm_params.has_projection
  let cellClip := decide (o.cell_threshold ≠ 0)
  let projClip := projection && decide (o.projection_threshold ≠ 0)
  { configuredFlag := true
    is_prepared := false
    graph := buildGraph cifg peephole layerNorm projection cellClip projClip
    scratch := buildScratch cifg
    run_peephole_opt := peephole
    run_cifg_opt := cifg
    perform_cell_clipping := cellClip
    has_projection_weights := projection
    perform_projection_clipping := projClip
    is_layer_norm_lstm := layerNorm
    onesMaterialized := false
    weightsPrepared := false }

/-- Modelled from the spec: the body of CLLSTMLayer::configure
(CLLSTMLayer.cpp is not part of the snapshot).  Per spec section 4.2 it first
runs the validator and aborts with its failure, leaving the instance
untouched; on success it derives the active variant, rebuilds the kernel
graph and scratch pool from the operands alone, and enters the Configured
state with the prepared guard cleared. -/
def CLLSTMLayer.configure (s : CLLSTMLayer) (o : LSTMOperands) :
    Status × CLLSTMLayer :=
  match CLLSTMLayer.validate o with
  | Status.configError r => (Status.configError r, s)
  | Status.ok => (Status.ok, configuredState o)

/-- Modelled from the spec: the body of CLLSTMLayer::prepare
(CLLSTMLayer.cpp is not part of the snapshot).  Calling it before configure
is a state error (spec section 7); once configured, a guard flag makes
repeated calls no-ops, and the first effective call performs the one-time
input-independent work: preparing the transposed and concatenated weights
and, under CIFG, materializing the tensor of ones (spec section 4.3). -/
def CLLSTMLayer.prepare (s : CLLSTMLayer) : Except LayerError CLLSTMLayer :=
  if s.configuredFlag = false then Except.error LayerError.stateError
  else if s.is_prepared then Except.ok s
  else Except.ok { s with
    is_prepared := true
    weightsPrepared := true
    onesMaterialized := s.run_cifg_opt }

/-- Modelled from the spec: the body of CLLSTMLayer::run (CLLSTMLayer.cpp is
not part of the snapshot).  Per spec section 4.4 it requires at least the
Configured state, auto-prepares if not yet Prepared, and dispatches the
kernel nodes in graph order; the returned trace is the dispatched sequence
(sequence order is the schedule). -/
def CLLSTMLayer.run (s : CLLSTMLayer) :
    Except LayerError (List KernelNode × CLLSTMLayer) :=
  match CLLSTMLayer.prepare s with
  | Except.error e => Except.error e
  | Except.ok s1 => Except.ok (s1.graph, s1)

/-- Calls a caller can make after configuration. -/
inductive LSTMCall
  | prepareCall
  | runCall
  deriving DecidableEq

/-- The state after one prepare or run call; a failing call leaves the state
unchanged. -/
def applyCall (s : CLLSTMLayer) (c : LSTMCall) : CLLSTMLayer :=
  match c with
  | LSTMCall.prepareCall =>
    match CLLSTMLayer.prepare s with
    | Except.ok t => t
    | Except.error _ => s
  | LSTMCall.runCall =>
    match CLLSTMLayer.run s with
    | Except.ok (_, t) => t
    | Except.error _ => s

/-- The state after a sequence of prepare and run calls. -/
def applyCalls (s : CLLSTMLayer) (cs : List LSTMCall) : CLLSTMLayer :=
  cs.foldl applyCall s

/-- Observable state of one CLFloorKernel instance: the bound source and
destination descriptors. -/
structure CLFloorKernel where
  inputInfo : Option TensorInfo
  outputInfo : Option TensorInfo
  deriving DecidableEq

/-- A default constructed CLFloorKernel with null operand pointers. -/
def CLFloorKernel.init : CLFloorKernel :=
  { inputInfo := none, outputInfo := none }

/-- Modelled from the spec: the body of CLFloorKernel::validate
(CLFloorKernel.cpp is not part of the snapshot).  Per the interface
documentation of CLFloorKernel.h the source must be F16 or F32 and the
destination must match the source. -/
def CLFloorKernel.validate (input output : TensorInfo) : Status :=
  if !decide (input.dataType = DataType.F16 ∨ input.dataType = DataType.F32) then
    Status.configError "data type not supported"
  else if !decide (output.shape = input.shape ∧ output.dataType = input.dataType) then
    Status.configError "destination does not match source"
  else Status.ok

/-- Modelled from the spec: the body of CLFloorKernel::configure
(CLFloorKernel.cpp is not part of the snapshot).  It imposes the same
precondition as the static validator and binds the operands on success. -/
def CLFloorKernel.configure (k : CLFloorKernel) (input output : TensorInfo) :
    Status × CLFloorKernel :=
  match CLFloorKernel.validate input output with
  | Status.configError r => (Status.configError r, k)
  | Status.ok => (Status.ok, { inputInfo := some input, outputInfo := some output })

/-- A 2D or 1D float32 tensor descriptor used by the concrete scenarios. -/
def f32 (sh : List Nat) : TensorInfo :=
  { shape := sh, dataType := DataType.F32 }

/-- Optional operand set of the minimal (non-CIFG, no options) scenario:
the input gate weight group supplied, everything else absent. -/
def minimalParams : LSTMParams :=
  { input_to_input_weights := some (f32 [3, 4])
    recurrent_to_input_weights := some (f32 [4, 4])
    cell_to_input_weights := none
    input_gate_bias := some (f32 [4])
    cell_to_forget_weights := none
    cell_to_output_weights := none
    projection_weights := none
    projection_bias := none
    input_layer_norm_weights := none
    forget_layer_norm_weights := none
    cell_layer_norm_weights := none
    output_layer_norm_weights := none }

/-- Optional operand set of the CIFG scenario: every input gate operand
omitted. -/
def cifgParams : LSTMParams :=
  { input_to_input_weights := none
    recurrent_to_input_weights := none
    cell_to_input_weights := none
    input_gate_bias := none
    cell_to_forget_weights := none
    cell_to_output_weights := none
    projection_weights := none
    projection_bias := none
    input_layer_norm_weights := none
    forget_layer_norm_weights := none
    cell_layer_norm_weights := none
    output_layer_norm_weights := none }

/-- Scenario 1 of spec section 8: batch size 1, num_units 4, input size 3,
float32, no optional path active.  Without CIFG the scratch buffer is
[num_units * 3, batch_size] = [12, 1]. -/
def minimalOps : LSTMOperands :=
  { input := f32 [3, 1]
    input_to_forget_weights := f32 [3, 4]
    input_to_cell_weights := f32 [3, 4]
    input_to_output_weights := f32 [3, 4]
    recurrent_to_forget_weights := f32 [4, 4]
    recurrent_to_cell_weights := f32 [4, 4]
    recurrent_to_output_weights := f32 [4, 4]
    forget_gate_bias := f32 [4]
    cell_bias := f32 [4]
    output_gate_bias := f32 [4]
    output_state_in := f32 [4, 1]
    cell_state_in := f32 [4, 1]
    scratch_buffer := f32 [12, 1]
    output_state_out := f32 [4, 1]
    cell_state_out := f32 [4, 1]
    output := f32 [4, 1]
    lstm_params := minimalParams
    activation_info := { activation := ActivationFunction.tanh }
    cell_threshold := 0
    projection_threshold := 0 }

/-- Scenario 3 of spec section 8: the CIFG variant of the minimal scenario;
with CIFG the scratch buffer is [num_units * 4, batch_size] = [16, 1]. -/
def cifgOps : LSTMOperands :=
  { minimalOps with lstm_params := cifgParams, scratch_buffer := f32 [16, 1] }

/-- An invalid operand bundle: the scratch buffer width 11 matches neither
variant. -/
def badOps : LSTMOperands :=
  { minimalOps with scratch_buffer := f32 [11, 1] }

/-- The minimal scenario instance right after its first configure. -/
def configuredMin : CLLSTMLayer :=
  (CLLSTMLayer.configure CLLSTMLayer.init minimalOps).2

/-- The minimal scenario instance after configure and one preparation. -/
def preparedMin : CLLSTMLayer :=
  { configuredMin with
    is_prepared := true
    weightsPrepared := true
    onesMaterialized := configuredMin.run_cifg_opt }

lemma validate_ok_iff (o : LSTMOperands) :
    CLLSTMLayer.validate o = Status.ok ↔
      (cifgGroupConsistent o.lstm_params = true ∧
       peepholeGroupConsistent o.lstm_params = true ∧
       projectionGroupConsistent o.lstm_params = true ∧
       layerNormGroupConsistent o.lstm_params = true ∧
       requiredShapesOk o = true ∧
       optionalShapesOk o = true ∧
       datatypesUniform o = true ∧
       scratchShapeOk o = true) := by
  unfold CLLSTMLayer.validate
  repeat' split
  all_goals simp_all

lemma prepare_configuredFlag (s t : CLLSTMLayer) :
    CLLSTMLayer.prepare s = Except.ok t → t.configuredFlag = s.configuredFlag := by
  unfold CLLSTMLayer.prepare
  split
  · intro h; cases h
  · split
    · intro h; cases h; rfl
    · intro h; cases h; rfl

lemma run_configuredFlag (s : CLLSTMLayer) (tr : List KernelNode) (t : CLLSTMLayer) :
    CLLSTMLayer.run s = Except.ok (tr, t) → t.configuredFlag = s.configuredFlag := by
  intro h
  unfold CLLSTMLayer.run at h
  cases hp : CLLSTMLayer.prepare s with
  | error e => simp [hp] at h
  | ok s1 =>
    simp only [hp] at h
    rw [Except.ok.injEq, Prod.mk.injEq] at h
    obtain ⟨h1, h2⟩ := h
    subst h2
    exact prepare_configuredFlag s s1 hp

lemma applyCall_configuredFlag (s : CLLSTMLayer) (c : LSTMCall) :
    (applyCall s c).configuredFlag = s.configuredFlag := by
  cases c
  · cases hp : CLLSTMLayer.prepare s with
    | error e => simp [applyCall, hp]
    | ok t => simp only [applyCall, hp]; exact prepare_configuredFlag s t hp
  · cases hr : CLLSTMLayer.run s with
    | error e => simp [applyCall, hr]
    | ok p =>
      obtain ⟨tr, t⟩ := p
      simp only [applyCall, hr]
      exact run_configuredFlag s tr t hr

lemma applyCalls_configuredFlag (cs : List LSTMCall) (s : CLLSTMLayer) :
    (applyCalls s cs).configuredFlag = s.configuredFlag := by
  induction cs generalizing s with
  | nil => rfl
  | cons c cs ih =>
    simp only [applyCalls, List.foldl_cons] at *
    rw [ih, applyCall_configuredFlag]

lemma lifecycle_unconfigured_iff (s : CLLSTMLayer) :
    s.lifecycle = Lifecycle.unconfigured ↔ s.configuredFlag = false := by
  unfold CLLSTMLayer.lifecycle
  split
  · simp_all
  · split <;> simp_all

lemma lifecycle_configured_iff (s : CLLSTMLayer) :
    s.lifecycle = Lifecycle.configured ↔
      (s.configuredFlag = true ∧ s.is_prepared = false) := by
  unfold CLLSTMLayer.lifecycle
  split
  · simp_all
  · split <;> simp_all

lemma lifecycle_prepared_iff (s : CLLSTMLayer) :
    s.lifecycle = Lifecycle.prepared ↔
      (s.configuredFlag = true ∧ s.is_prepared = true) := by
  unfold CLLSTMLayer.lifecycle
  split
  · simp_all
  · split <;> simp_all

lemma configure_ok_state (s : CLLSTMLayer) (o : LSTMOperands)
    (hok : CLLSTMLayer.validate o = Status.ok) :
    CLLSTMLayer.configure s o = (Status.ok, configuredState o) := by
  unfold CLLSTMLayer.configure
  rw [hok]

lemma configure_error_state (s : CLLSTMLayer) (o : LSTMOperands) (r : String)
    (h : CLLSTMLayer.validate o = Status.configError r) :
    CLLSTMLayer.configure s o = (Status.configError r, s) := by
  unfold CLLSTMLayer.configure
  rw [h]

lemma configuredState_graph (o : LSTMOperands) :
    (configuredState o).graph =
      buildGraph o.lstm_params.has_cifg_opt o.lstm_params.has_peephole_opt
        o.lstm_params.use_layer_norm o.lstm_params.has_projection
        (decide (o.cell_threshold ≠ 0))
        (o.lstm_params.has_projection && decide (o.projection_threshold ≠ 0)) := rfl

lemma configuredState_scratch (o : LSTMOperands) :
    (configuredState o).scratch = buildScratch o.lstm_params.has_cifg_opt := rfl

lemma configuredState_cellClipFlag (o : LSTMOperands) :
    (configuredState o).perform_cell_clipping = decide (o.cell_threshold ≠ 0) := rfl

lemma configuredState_projClipFlag (o : LSTMOperands) :
    (configuredState o).perform_projection_clipping =
      (o.lstm_params.has_projection && decide (o.projection_threshold ≠ 0)) := rfl

lemma configuredState_cifgFlag (o : LSTMOperands) :
    (configuredState o).run_cifg_opt = o.lstm_params.has_cifg_opt := rfl

lemma prepare_ok_is_prepared (s t : CLLSTMLayer)
    (h : CLLSTMLayer.prepare s = Except.ok t) :
    t.configuredFlag = s.configuredFlag ∧ t.is_prepared = true := by
  unfold CLLSTMLayer.prepare at h
  split at h
  · cases h
  · split at h
    · cases h
      rename_i hp
      exact ⟨rfl, hp⟩
    · cases h
      exact ⟨rfl, rfl⟩

lemma prepare_already_prepared (t : CLLSTMLayer) (hf : t.configuredFlag = true)
    (hp : t.is_prepared = true) : CLLSTMLayer.prepare t = Except.ok t := by
  unfold CLLSTMLayer.prepare
  rw [hf, hp]
  simp

lemma cifg_graph_facts :
    ∀ pe ln pr cc pc : Bool,
      KernelNode.fullyConnectedInputGate ∉ buildGraph true pe ln pr cc pc ∧
      KernelNode.activationInputGate ∉ buildGraph true pe ln pr cc pc ∧
      KernelNode.subtractInputGate ∈ buildGraph true pe ln pr cc pc := by decide

lemma no_cellClip_node_when_flag_false :
    ∀ c pe ln pr pc : Bool, KernelNode.cellClip ∉ buildGraph c pe ln pr false pc := by decide

lemma no_projClip_node_when_flag_false :
    ∀ c pe ln pr cc : Bool, KernelNode.projectionClip ∉ buildGraph c pe ln pr cc false := by decide

lemma cifg_scratch_facts :
    ScratchRole.inputGate ∈ buildScratch true ∧ ScratchRole.ones ∈ buildScratch true := by decide

/-- C1: for every operand descriptor set, feature configuration, activation
information and clip thresholds, the static CLLSTMLayer validate returns a
success status if and only if CLLSTMLayer configure on the same descriptors
and parameters succeeds. -/
theorem validate_configure_equiv (s : CLLSTMLayer) (o : LSTMOperands) :
    CLLSTMLayer.validate o = Status.ok ↔
      (CLLSTMLayer.configure s o).1 = Status.ok := by
  constructor
  · intro h
    rw [configure_ok_state s o h]
  · intro h
    cases hv : CLLSTMLayer.validate o with
    | ok => rfl
    | configError r =>
      rw [configure_error_state s o r hv] at h
      cases h

/-- Witness for C1 at the minimal scenario: configure succeeds because
validate does. -/
theorem validate_configure_equiv_witness :
    (CLLSTMLayer.configure CLLSTMLayer.init minimalOps).1 = Status.ok :=
  (validate_configure_equiv CLLSTMLayer.init minimalOps).mp (by decide)

/-- C2: the lifecycle follows Unconfigured to Configured to Prepared: run is
rejected from Unconfigured and permitted from Configured or Prepared; the
first run from Configured performs the preparation transparently and leaves
the instance Prepared; and no sequence of prepare and run calls returns a
configured instance to Unconfigured. -/
theorem lstm_lifecycle_state_machine :
    (∀ s : CLLSTMLayer, s.lifecycle = Lifecycle.unconfigured →
       CLLSTMLayer.run s = Except.error LayerError.stateError) ∧
    (∀ s : CLLSTMLayer, s.lifecycle ≠ Lifecycle.unconfigured →
       ∃ tr t, CLLSTMLayer.run s = Except.ok (tr, t)) ∧
    (∀ (s : CLLSTMLayer) (tr : List KernelNode) (t : CLLSTMLayer),
       s.lifecycle = Lifecycle.configured →
       CLLSTMLayer.run s = Except.ok (tr, t) →
       t.lifecycle = Lifecycle.prepared ∧ CLLSTMLayer.prepare s = Except.ok t) ∧
    (∀ (s : CLLSTMLayer) (cs : List LSTMCall),
       s.lifecycle ≠ Lifecycle.unconfigured →
       (applyCalls s cs).lifecycle ≠ Lifecycle.unconfigured) := by
  refine ⟨?_, ?_, ?_, ?_⟩
  · intro s h
    have hf := (lifecycle_unconfigured_iff s).mp h
    unfold CLLSTMLayer.run CLLSTMLayer.prepare
    rw [hf]
    rfl
  · intro s hs
    have hf : s.configuredFlag = true := by
      cases hc : s.configuredFlag
      · exact absurd ((lifecycle_unconfigured_iff s).mpr hc) hs
      · rfl
    cases hp : s.is_prepared
    · exact ⟨_, _, by unfold CLLSTMLayer.run CLLSTMLayer.prepare; rw [hf, hp]; rfl⟩
    · exact ⟨_, _, by unfold CLLSTMLayer.run CLLSTMLayer.prepare; rw [hf, hp]; rfl⟩
  · intro s tr t hc hr
    obtain ⟨hf, hp⟩ := (lifecycle_configured_iff s).mp hc
    have hps : CLLSTMLayer.prepare s = Except.ok { s with
        is_prepared := true
        weightsPrepared := true
        onesMaterialized := s.run_cifg_opt } := by
      unfold CLLSTMLayer.prepare
      rw [hf, hp]
      simp
    unfold CLLSTMLayer.run at hr
    simp only [hps] at hr
    rw [Except.ok.injEq, Prod.mk.injEq] at hr
    obtain ⟨h1, h2⟩ := hr
    subst h2
    refine ⟨(lifecycle_prepared_iff _).mpr ⟨by simpa using hf, rfl⟩, hps⟩
  · intro s cs h hcontra
    apply h
    rw [lifecycle_unconfigured_iff] at hcontra ⊢
    rw [← applyCalls_configuredFlag cs s]
    exact hcontra

/-- Witness for C2: a fresh instance rejects run with a state error, the
first run from the configured minimal instance reaches Prepared through the
transparent preparation, and a run and prepare sequence keeps the instance
out of Unconfigured. -/
theorem lstm_lifecycle_state_machine_witness :
    CLLSTMLayer.run CLLSTMLayer.init = Except.error LayerError.stateError ∧
    preparedMin.lifecycle = Lifecycle.prepared ∧
    CLLSTMLayer.prepare configuredMin = Except.ok preparedMin ∧
    (applyCalls configuredMin [LSTMCall.runCall, LSTMCall.prepareCall]).lifecycle ≠
      Lifecycle.unconfigured := by
  refine ⟨lstm_lifecycle_state_machine.1 CLLSTMLayer.init (by decide),
    (lstm_lifecycle_state_machine.2.2.1 configuredMin configuredMin.graph preparedMin
      (by decide) rfl).1,
    (lstm_lifecycle_state_machine.2.2.1 configuredMin configuredMin.graph preparedMin
      (by decide) rfl).2,
    lstm_lifecycle_state_machine.2.2.2 configuredMin
      [LSTMCall.runCall, LSTMCall.prepareCall] (by decide)⟩

/-- C3: prepare is idempotent on a configured instance: preparing twice
equals preparing once, every call after the first is a no-op that leaves the
guard set, and a subsequent run from either state is the same. -/
theorem prepare_idempotent (s : CLLSTMLayer)
    (h : s.lifecycle ≠ Lifecycle.unconfigured) :
    (CLLSTMLayer.prepare s).bind CLLSTMLayer.prepare = CLLSTMLayer.prepare s ∧
    (∀ t, CLLSTMLayer.prepare s = Except.ok t →
       t.is_prepared = true ∧ CLLSTMLayer.prepare t = Except.ok t) ∧
    (∀ t u, CLLSTMLayer.prepare s = Except.ok t →
       CLLSTMLayer.prepare t = Except.ok u →
       u = t ∧ CLLSTMLayer.run u = CLLSTMLayer.run t) := by
  have hf : s.configuredFlag = true := by
    cases hc : s.configuredFlag
    · exact absurd ((lifecycle_unconfigured_iff s).mpr hc) h
    · rfl
  have hpre : ∃ t, CLLSTMLayer.prepare s = Except.ok t := by
    unfold CLLSTMLayer.prepare
    rw [hf]
    split
    · rename_i hcontra
      exact absurd hcontra (by decide)
    · split
      · exact ⟨_, rfl⟩
      · exact ⟨_, rfl⟩
  obtain ⟨t0, ht0⟩ := hpre
  have hfields := prepare_ok_is_prepared s t0 ht0
  have hagain : CLLSTMLayer.prepare t0 = Except.ok t0 :=
    prepare_already_prepared t0 (hfields.1.trans hf) hfields.2
  refine ⟨?_, ?_, ?_⟩
  · rw [ht0]
    show CLLSTMLayer.prepare t0 = Except.ok t0
    exact hagain
  · intro t ht
    rw [ht0] at ht
    rw [Except.ok.injEq] at ht
    subst ht
    exact ⟨hfields.2, hagain⟩
  · intro t u ht hu
    rw [ht0] at ht
    rw [Except.ok.injEq] at ht
    subst ht
    rw [hagain] at hu
    rw [Except.ok.injEq] at hu
    subst hu
    exact ⟨rfl, rfl⟩

/-- Witness for C3: on the configured minimal instance, a second prepare is a
no-op on the state reached by the first. -/
theorem prepare_idempotent_witness :
    preparedMin.is_prepared = true ∧
    CLLSTMLayer.prepare preparedMin = Except.ok preparedMin :=
  (prepare_idempotent configuredMin (by decide)).2.1 preparedMin rfl

/-- C4: when validation rejects, configure aborts with the same error and
leaves the instance completely unchanged: no scratch tensor allocated, no
kernel node appended, lifecycle untouched. -/
theorem configure_atomic_on_error (s : CLLSTMLayer) (o : LSTMOperands)
    (r : String) (h : CLLSTMLayer.validate o = Status.configError r) :
    CLLSTMLayer.configure s o = (Status.configError r, s) ∧
    (CLLSTMLayer.configure s o).2.graph = s.graph ∧
    (CLLSTMLayer.configure s o).2.scratch = s.scratch ∧
    (CLLSTMLayer.configure s o).2.lifecycle = s.lifecycle := by
  have he := configure_error_state s o r h
  rw [he]
  exact ⟨rfl, rfl, rfl, rfl⟩

/-- Witness for C4: a scratch buffer of width 11 is rejected and a fresh
instance is left exactly as constructed. -/
theorem configure_atomic_on_error_witness :
    CLLSTMLayer.configure CLLSTMLayer.init badOps =
      (Status.configError "scratch buffer shape does not match active variant",
       CLLSTMLayer.init) :=
  (configure_atomic_on_error CLLSTMLayer.init badOps
    "scratch buffer shape does not match active variant" (by decide)).1

/-- C5: on every otherwise valid configuration, a cell threshold of 0 turns
cell clipping off: the clipping flag is false and no cell clip node is in the
graph; the same convention holds for a projection threshold of 0. -/
theorem zero_threshold_disables_clipping (s : CLLSTMLayer) (o : LSTMOperands)
    (hok : CLLSTMLayer.validate o = Status.ok) :
    (o.cell_threshold = 0 →
      (CLLSTMLayer.configure s o).2.perform_cell_clipping = false ∧
      KernelNode.cellClip ∉ (CLLSTMLayer.configure s o).2.graph) ∧
    (o.projection_threshold = 0 →
      (CLLSTMLayer.configure s o).2.perform_projection_clipping = false ∧
      KernelNode.projectionClip ∉ (CLLSTMLayer.configure s o).2.graph) := by
  rw [configure_ok_state s o hok]
  constructor
  · intro hc
    have hcc : decide (o.cell_threshold ≠ 0) = false := by
      rw [hc]
      decide
    constructor
    · rw [configuredState_cellClipFlag, hcc]
    · rw [configuredState_graph, hcc]
      exact no_cellClip_node_when_flag_false _ _ _ _ _
  · intro hpz
    have hpc : decide (o.projection_threshold ≠ 0) = false := by
      rw [hpz]
      decide
    constructor
    · rw [configuredState_projClipFlag, hpc, Bool.and_false]
    · rw [configuredState_graph, hpc, Bool.and_false]
      exact no_projClip_node_when_flag_false _ _ _ _ _

/-- Witness for C5: the minimal scenario has both thresholds 0, so both
clipping flags are false and its graph carries no clipping node. -/
theorem zero_threshold_disables_clipping_witness :
    ((CLLSTMLayer.configure CLLSTMLayer.init minimalOps).2.perform_cell_clipping = false ∧
     KernelNode.cellClip ∉ (CLLSTMLayer.configure CLLSTMLayer.init minimalOps).2.graph) ∧
    ((CLLSTMLayer.configure CLLSTMLayer.init minimalOps).2.perform_projection_clipping = false ∧
     KernelNode.projectionClip ∉ (CLLSTMLayer.configure CLLSTMLayer.init minimalOps).2.graph) :=
  ⟨(zero_threshold_disables_clipping CLLSTMLayer.init minimalOps (by decide)).1 rfl,
   (zero_threshold_disables_clipping CLLSTMLayer.init minimalOps (by decide)).2 rfl⟩

/-- C6: with every input gate operand omitted (the CIFG variant) and operands
otherwise valid, configure succeeds, the graph carries no input gate linear
projection or activation node, the input gate is instead derived through the
subtraction node, the scratch pool holds the derived input gate tensor and
the tensor of ones, and preparation materializes the ones. -/
theorem cifg_variant_graph (s : CLLSTMLayer) (o : LSTMOperands)
    (h1 : o.lstm_params.input_to_input_weights = none)
    (h2 : o.lstm_params.recurrent_to_input_weights = none)
    (h3 : o.lstm_params.input_gate_bias = none)
    (h4 : o.lstm_params.cell_to_input_weights = none)
    (hok : CLLSTMLayer.validate o = Status.ok) :
    (CLLSTMLayer.configure s o).1 = Status.ok ∧
    KernelNode.fullyConnectedInputGate ∉ (CLLSTMLayer.configure s o).2.graph ∧
    KernelNode.activationInputGate ∉ (CLLSTMLayer.configure s o).2.graph ∧
    KernelNode.subtractInputGate ∈ (CLLSTMLayer.configure s o).2.graph ∧
    ScratchRole.inputGate ∈ (CLLSTMLayer.configure s o).2.scratch ∧
    ScratchRole.ones ∈ (CLLSTMLayer.configure s o).2.scratch ∧
    (CLLSTMLayer.configure s o).2.run_cifg_opt = true ∧
    (∀ t, CLLSTMLayer.prepare (CLLSTMLayer.configure s o).2 = Except.ok t →
       t.onesMaterialized = true) := by
  have hcifg : o.lstm_params.has_cifg_opt = true := by
    unfold LSTMParams.has_cifg_opt
    rw [h1]
    rfl
  rw [configure_ok_state s o hok]
  refine ⟨rfl, ?_, ?_, ?_, ?_, ?_, ?_, ?_⟩
  · rw [configuredState_graph, hcifg]
    exact (cifg_graph_facts _ _ _ _ _).1
  · rw [configuredState_graph, hcifg]
    exact (cifg_graph_facts _ _ _ _ _).2.1
  · rw [configuredState_graph, hcifg]
    exact (cifg_graph_facts _ _ _ _ _).2.2
  · rw [configuredState_scratch, hcifg]
    exact cifg_scratch_facts.1
  · rw [configuredState_scratch, hcifg]
    exact cifg_scratch_facts.2
  · rw [configuredState_cifgFlag]
    exact hcifg
  · have hps : CLLSTMLayer.prepare (configuredState o) = Except.ok
        { configuredState o with
          is_prepared := true
          weightsPrepared := true
          onesMaterialized := (configuredState o).run_cifg_opt } := rfl
    intro t ht
    rw [hps, Except.ok.injEq] at ht
    subst ht
    show (configuredState o).run_cifg_opt = true
    rw [configuredState_cifgFlag]
    exact hcifg

/-- Witness for C6 at the concrete CIFG scenario. -/
theorem cifg_variant_graph_witness :
    (CLLSTMLayer.configure CLLSTMLayer.init cifgOps).1 = Status.ok ∧
    KernelNode.fullyConnectedInputGate ∉
      (CLLSTMLayer.configure CLLSTMLayer.init cifgOps).2.graph ∧
    KernelNode.subtractInputGate ∈
      (CLLSTMLayer.configure CLLSTMLayer.init cifgOps).2.graph ∧
    ScratchRole.ones ∈ (CLLSTMLayer.configure CLLSTMLayer.init cifgOps).2.scratch :=
  ⟨(cifg_variant_graph CLLSTMLayer.init cifgOps rfl rfl rfl rfl (by decide)).1,
   (cifg_variant_graph CLLSTMLayer.init cifgOps rfl rfl rfl rfl (by decide)).2.1,
   (cifg_variant_graph CLLSTMLayer.init cifgOps rfl rfl rfl rfl (by decide)).2.2.2.1,
   (cifg_variant_graph CLLSTMLayer.init cifgOps rfl rfl rfl rfl (by decide)).2.2.2.2.2.1⟩

/-- C7: run or prepare on a never configured instance yields the state error,
a distinct error class from configuration errors; the instance does not
execute. -/
theorem run_before_configure_state_error (s : CLLSTMLayer)
    (h : s.lifecycle = Lifecycle.unconfigured) :
    CLLSTMLayer.run s = Except.error LayerError.stateError ∧
    CLLSTMLayer.prepare s = Except.error LayerError.stateError ∧
    (∀ r, LayerError.stateError ≠ LayerError.configurationError r) := by
  have hf := (lifecycle_unconfigured_iff s).mp h
  refine ⟨?_, ?_, ?_⟩
  · unfold CLLSTMLayer.run CLLSTMLayer.prepare
    rw [hf]
    rfl
  · unfold CLLSTMLayer.prepare
    rw [hf]
    rfl
  · intro r hcontra
    cases hcontra

/-- Witness for C7 on a freshly constructed instance. -/
theorem run_before_configure_state_error_witness :
    CLLSTMLayer.prepare CLLSTMLayer.init = Except.error LayerError.stateError :=
  (run_before_configure_state_error CLLSTMLayer.init (by decide)).2.1

/-- C8: re-invoking configure on an already configured instance with valid
operands yields exactly the state of a freshly constructed instance
configured once: graph and scratch pool rebuilt, prepared guard cleared,
lifecycle back to Configured. -/
theorem reconfigure_resets (s : CLLSTMLayer) (o : LSTMOperands)
    (hs : s.lifecycle ≠ Lifecycle.unconfigured)
    (hok : CLLSTMLayer.validate o = Status.ok) :
    CLLSTMLayer.configure s o = CLLSTMLayer.configure CLLSTMLayer.init o ∧
    (CLLSTMLayer.configure s o).2 = configuredState o ∧
    (CLLSTMLayer.configure s o).2.is_prepared = false ∧
    (CLLSTMLayer.configure s o).2.lifecycle = Lifecycle.configured := by
  rw [configure_ok_state s o hok, configure_ok_state CLLSTMLayer.init o hok]
  exact ⟨rfl, rfl, rfl, rfl⟩

/-- Witness for C8: reconfiguring the prepared minimal instance equals
configuring a fresh instance. -/
theorem reconfigure_resets_witness :
    CLLSTMLayer.configure preparedMin minimalOps =
      CLLSTMLayer.configure CLLSTMLayer.init minimalOps :=
  (reconfigure_resets preparedMin minimalOps (by decide) (by decide)).1

/-- C9: whenever validate succeeds the scratch buffer is 2D with second
dimension batch_size and first dimension num_units times 4 with CIFG and
num_units times 3 without, as the interface documents; any other width is
rejected. -/
theorem validate_scratch_shape (o : LSTMOperands)
    (hok : CLLSTMLayer.validate o = Status.ok) :
    o.scratch_buffer.shape =
      [o.num_units * (if o.lstm_params.has_cifg_opt then 4 else 3),
       o.batch_size] := by
  have h := ((validate_ok_iff o).mp hok).2.2.2.2.2.2.2
  unfold scratchShapeOk at h
  exact of_decide_eq_true h

/-- Witness for C9 at the minimal scenario, whose scratch buffer is
[12, 1] = [4 * 3, 1]. -/
theorem validate_scratch_shape_witness :
    minimalOps.scratch_buffer.shape =
      [minimalOps.num_units * (if minimalOps.lstm_params.has_cifg_opt then 4 else 3),
       minimalOps.batch_size] :=
  validate_scratch_shape minimalOps (by decide)

/-- C10: CLFloorKernel validate succeeds only when the source data type is
F16 or F32 and the destination matches the source in shape and data type;
CLFloorKernel configure imposes exactly the validate precondition. -/
theorem floor_validate_configure (k : CLFloorKernel) (input output : TensorInfo) :
    (CLFloorKernel.validate input output = Status.ok →
       (input.dataType = DataType.F16 ∨ input.dataType = DataType.F32) ∧
       output.shape = input.shape ∧ output.dataType = input.dataType) ∧
    ((CLFloorKernel.configure k input output).1 = Status.ok ↔
       CLFloorKernel.validate input output = Status.ok) := by
  constructor
  · intro h
    unfold CLFloorKernel.validate at h
    split at h
    · cases h
    · split at h
      · cases h
      · rename_i h1 h2
        simp at h1 h2
        exact ⟨or_iff_not_imp_left.mpr h1, h2⟩
  · constructor
    · intro h
      cases hv : CLFloorKernel.validate input output with
      | ok => rfl
      | configError r =>
        unfold CLFloorKernel.configure at h
        simp [hv] at h
    · intro h
      unfold CLFloorKernel.configure
      rw [h]

/-- Witness for C10 on a concrete F32 tensor pair accepted by the kernel. -/
theorem floor_validate_configure_witness :
    ((f32 [2, 2]).dataType = DataType.F16 ∨ (f32 [2, 2]).dataType = DataType.F32) ∧
    (CLFloorKernel.configure CLFloorKernel.init (f32 [2, 2]) (f32 [2, 2])).1 = Status.ok :=
  ⟨((floor_validate_configure CLFloorKernel.init (f32 [2, 2]) (f32 [2, 2])).1 (by decide)).1,
   (floor_validate_configure CLFloorKernel.init (f32 [2, 2]) (f32 [2, 2])).2.mpr (by decide)⟩
